import Mathlib

/-!
Shallow embedding of `src/src/orchestrator.py` (godAgent).

The orchestrator drives a task through: council selection → optional
approval gating → agent execution → decision logging.  Collaborators
(council selector, approval manager, executor, external decision logger)
are modelled as oracles in an `Env` record: each field records the
outcome of the corresponding collaborator call in one run — either a
returned value (`Except.ok`) or a raised exception carrying its
`str(e)` message (`Except.error`).  `process_task` is a total Lean
function; the Python `try/except Exception` block is reflected in the
branching structure, so totality of the Lean function is exactly the
"never raises" boundary of the Python method.

State visible to the claims: the in-memory decision list
`Orchestrator._decisions` (threaded as an explicit `List Decision`),
the sequence of `task.status` writes (collected in a trace), and
counters for executor invocations and approval-request creations.
-/

namespace GodAgent

/-- Enum `ApprovalMode` (orchestrator.py lines 39-43). -/
inductive ApprovalMode
  | AUTO
  | APPROVE_ALL
  | APPROVE_HIGH_RISK
deriving DecidableEq, Repr

/-- Enum `TaskStatus` (orchestrator.py lines 46-54).  The spec calls
`COUNCIL_SELECTING` simply `SELECTING`. -/
inductive TaskStatus
  | PENDING
  | COUNCIL_SELECTING
  | AWAITING_APPROVAL
  | EXECUTING
  | COMPLETED
  | FAILED
  | REJECTED
deriving DecidableEq, Repr

/-- Dataclass `AgentSelection` (orchestrator.py lines 73-80).  The float
`confidence` is modelled as a rational; no claim computes with it. -/
structure AgentSelection where
  selected_agent : String
  confidence : Rat
  reasoning : String
  votes : List (String × String)
  rankings : List (String × List String)
deriving DecidableEq, Repr

/-- Dataclass `ExecutionResult` (orchestrator.py lines 83-92);
`inter_agent_calls` (always defaulted to `[]` in the orchestrator) is
omitted. -/
structure ExecutionResult where
  task_id : String
  agent : String
  response : String
  success : Bool
  duration_ms : Nat
  error : Option String
deriving DecidableEq, Repr

/-- The record returned by the executor collaborator
(`self._executor.execute`, consumed at orchestrator.py lines 306-315). -/
structure ExecReturn where
  response : String
  success : Bool
  duration_ms : Nat
  error : Option String
deriving DecidableEq, Repr

/-- Dataclass `Decision` (orchestrator.py lines 95-106); `created_at` is
an abstract tick supplied by the environment. -/
structure Decision where
  id : String
  task_id : String
  decision_type : String
  title : String
  reasoning : String
  confidence : Rat
  alternatives : List String
  outcome : Option String
  created_at : Nat
deriving DecidableEq, Repr

/-- Oracle environment for one `process_task` run.  Each `Except` field
is the outcome of the corresponding collaborator call: `.ok` a returned
value, `.error` a raised exception's message. -/
structure Env where
  /-- Value of `str(uuid.uuid4())` for the task (line 174). -/
  taskId : String
  /-- Outcome of `self._select_agent(task)` (line 185, body 228-251). -/
  select : Except String AgentSelection
  /-- Argument `approval_mode` (line 153); enum members are truthy,
  so `approval_mode or ApprovalMode(...)` uses it whenever provided. -/
  approvalOverride : Option ApprovalMode
  /-- Value of `self.config.settings.approval.get("mode", "AUTO")` (line 189). -/
  configMode : String
  /-- Outcome of `self._approval_manager.classify_risk(...)` (line 268). -/
  classifyRisk : Except String String
  /-- Outcome of `self._approval_manager.requires_approval(...)` (line 273). -/
  requiresApproval : Except String Bool
  /-- Outcome of `self._approval_manager.create_request(...)` (line 277). -/
  createRequest : Except String Unit
  /-- Value of `self._approval_manager.auto_approve(request).approved` (lines 286-287). -/
  autoApprove : Except String Bool
  /-- Outcome of `self._executor.execute(agent_name, context)` (line 306). -/
  execute : Except String ExecReturn
  /-- Outcome of `_log_decision` up to (not including) the local append:
  building alternatives, `self._decision_logger.log_decision(...)` and
  the `Decision(...)` construction (lines 329-355). -/
  logExternal : Except String Unit
  /-- Value of `str(uuid.uuid4())` for the local `Decision` (line 347). -/
  decisionId : String
  /-- Abstract timestamp for the local `Decision.created_at`. -/
  decisionTime : Nat
  /-- Value of `list(self.config.agents.keys())` (line 353). -/
  agentNames : List String
  /-- Value of `int((time.time() - start_time) * 1000)` on the except path (line 218). -/
  failDuration : Nat
deriving Repr

/-- Python `ApprovalMode(value)` on a string: `Enum.__call__`, raising
`ValueError` for an unknown value (used at lines 188-190). -/
def ApprovalMode.ofString (s : String) : Except String ApprovalMode :=
  if s = "AUTO" then .ok .AUTO
  else if s = "APPROVE_ALL" then .ok .APPROVE_ALL
  else if s = "APPROVE_HIGH_RISK" then .ok .APPROVE_HIGH_RISK
  else .error (s ++ " is not a valid ApprovalMode")

/-- Resolution `mode = approval_mode or ApprovalMode(self.config...)` (lines 188-190). -/
def effectiveMode (env : Env) : Except String ApprovalMode :=
  match env.approvalOverride with
  | some m => .ok m
  | none => ApprovalMode.ofString env.configMode

/-- Method `Orchestrator._check_approval` (lines 253-287).  Returns the outcome
(approved or raised) together with the number of approval requests that
were created during the call. -/
def check_approval (env : Env) : Except String Bool × Nat :=
  match env.classifyRisk with
  | .error e => (.error e, 0)
  | .ok _risk =>
    match env.requiresApproval with
    | .error e => (.error e, 0)
    | .ok required =>
      if !required then (.ok true, 0)
      else
        match env.createRequest with
        | .error e => (.error e, 0)
        | .ok _ =>
          match env.autoApprove with
          | .error e => (.error e, 1)
          | .ok approved => (.ok approved, 1)

/-- Method `Orchestrator._execute_agent` (lines 289-315): wraps the executor
collaborator's record into an `ExecutionResult` for this task. -/
def execute_agent (env : Env) (agent_name : String) :
    Except String ExecutionResult :=
  match env.execute with
  | .error e => .error e
  | .ok r =>
    .ok { task_id := env.taskId, agent := agent_name,
          response := r.response, success := r.success,
          duration_ms := r.duration_ms, error := r.error }

/-- The local `Decision` record built at orchestrator.py lines 346-355:
`alternatives` is the full agent-name list and `outcome` reflects
`result.success`. -/
def localDecision (env : Env) (sel : AgentSelection)
    (result : ExecutionResult) : Decision :=
  { id := env.decisionId, task_id := env.taskId,
    decision_type := "AGENT_SELECTION",
    title := "Selected " ++ sel.selected_agent ++ " for task",
    reasoning := sel.reasoning,
    confidence := sel.confidence,
    alternatives := env.agentNames,
    outcome := some (if result.success then "success" else "failure"),
    created_at := env.decisionTime }

/-- Method `Orchestrator._log_decision` (lines 317-360): the external logger
call (and everything before the local append) may raise; on success the
local `Decision` is appended to `self._decisions`. -/
def log_decision (env : Env) (sel : AgentSelection)
    (result : ExecutionResult) (ds : List Decision) :
    Except String (List Decision) :=
  match env.logExternal with
  | .error e => .error e
  | .ok _ => .ok (ds ++ [localDecision env sel result])

/-- Observable outcome of one `process_task` run: the returned
`ExecutionResult`, the final `task.status`, the ordered sequence of
status values the task held (starting from the initial `PENDING`), the
decision list after the run, and how many executor invocations and
approval-request creations happened. -/
structure RunOutcome where
  result : ExecutionResult
  finalStatus : TaskStatus
  statuses : List TaskStatus
  decisions : List Decision
  executorCalls : Nat
  approvalRequests : Nat
deriving Repr

/-- The `ExecutionResult` built in the `except` handler
(orchestrator.py lines 219-226). -/
def failedResult (env : Env) (msg : String) : ExecutionResult :=
  { task_id := env.taskId, agent := "unknown", response := "",
    success := false, duration_ms := env.failDuration,
    error := some msg }

/-- The `ExecutionResult` returned on approval denial
(orchestrator.py lines 196-203). -/
def rejectedResult (env : Env) (sel : AgentSelection) : ExecutionResult :=
  { task_id := env.taskId, agent := sel.selected_agent, response := "",
    success := false, duration_ms := 0,
    error := some "User rejected agent selection" }

/-- Steps 3 and 4 of `process_task` (lines 205-226): set `EXECUTING`,
call the executor, log the decision, set `COMPLETED`; any raise lands in
the `except` handler which sets `FAILED`.  `pre` is the list of statuses
already traversed, `reqs` the approval requests already created. -/
def runExecutePhase (env : Env) (sel : AgentSelection)
    (ds : List Decision) (pre : List TaskStatus) (reqs : Nat) :
    RunOutcome :=
  match execute_agent env sel.selected_agent with
  | .error e =>
    { result := failedResult env e, finalStatus := .FAILED,
      statuses := pre ++ [.EXECUTING, .FAILED],
      decisions := ds, executorCalls := 1, approvalRequests := reqs }
  | .ok result =>
    match log_decision env sel result ds with
    | .error e =>
      { result := failedResult env e, finalStatus := .FAILED,
        statuses := pre ++ [.EXECUTING, .FAILED],
        decisions := ds, executorCalls := 1, approvalRequests := reqs }
    | .ok ds2 =>
      { result := result, finalStatus := .COMPLETED,
        statuses := pre ++ [.EXECUTING, .COMPLETED],
        decisions := ds2, executorCalls := 1, approvalRequests := reqs }

/-- Method `Orchestrator.process_task` (orchestrator.py lines 148-226), as a
total function from the oracle environment and the decision list before
the call to the observable outcome.  Totality is the "never raises"
boundary: every collaborator raise is routed to the `except` handler's
`FAILED` outcome. -/
def process_task (env : Env) (ds : List Decision) : RunOutcome :=
  match env.select with
  | .error e =>
    { result := failedResult env e, finalStatus := .FAILED,
      statuses := [.PENDING, .COUNCIL_SELECTING, .FAILED],
      decisions := ds, executorCalls := 0, approvalRequests := 0 }
  | .ok sel =>
    match effectiveMode env with
    | .error e =>
      { result := failedResult env e, finalStatus := .FAILED,
        statuses := [.PENDING, .COUNCIL_SELECTING, .FAILED],
        decisions := ds, executorCalls := 0, approvalRequests := 0 }
    | .ok mode =>
      if mode ≠ ApprovalMode.AUTO then
        match check_approval env with
        | (.error e, reqs) =>
          { result := failedResult env e, finalStatus := .FAILED,
            statuses := [.PENDING, .COUNCIL_SELECTING,
                         .AWAITING_APPROVAL, .FAILED],
            decisions := ds, executorCalls := 0, approvalRequests := reqs }
        | (.ok approved, reqs) =>
          if !approved then
            { result := rejectedResult env sel, finalStatus := .REJECTED,
              statuses := [.PENDING, .COUNCIL_SELECTING,
                           .AWAITING_APPROVAL, .REJECTED],
              decisions := ds, executorCalls := 0, approvalRequests := reqs }
          else
            runExecutePhase env sel ds
              [.PENDING, .COUNCIL_SELECTING, .AWAITING_APPROVAL] reqs
      else
        runExecutePhase env sel ds [.PENDING, .COUNCIL_SELECTING] 0

/-- Method `Orchestrator.get_decisions` (lines 370-372) returns
`self._decisions[-limit:]`; this is Python list slicing with a negative
start index. -/
def pySliceFrom {α : Type} (xs : List α) (start : Int) : List α :=
  if start < 0 then xs.drop (xs.length + start).toNat
  else xs.drop start.toNat

/-- Definition `Orchestrator.get_decisions(limit)` = `self._decisions[-limit:]`. -/
def get_decisions (ds : List Decision) (limit : Nat) : List Decision :=
  pySliceFrom ds (-(limit : Int))

/-- True when this run raises internally somewhere inside the `try`
block (selection, mode resolution, approval, execution or logging), i.e.
when the `except Exception` handler fires. -/
def executePhaseError (env : Env) : Bool :=
  match env.execute with
  | .error _ => true
  | .ok _ =>
    match env.logExternal with
    | .error _ => true
    | .ok _ => false

/-- Whether the `except Exception` handler of `process_task` fires in
this run (an internal error arose at some stage). -/
def errorArose (env : Env) : Bool :=
  match env.select with
  | .error _ => true
  | .ok _ =>
    match effectiveMode env with
    | .error _ => true
    | .ok mode =>
      if mode ≠ ApprovalMode.AUTO then
        match check_approval env with
        | (.error _, _) => true
        | (.ok approved, _) =>
          if !approved then false else executePhaseError env
      else executePhaseError env

/-- Whether this run reaches Step 3 (`task.status = EXECUTING` and the
executor is invoked). -/
def reachesExecution (env : Env) : Bool :=
  match env.select with
  | .error _ => false
  | .ok _ =>
    match effectiveMode env with
    | .error _ => false
    | .ok mode =>
      if mode ≠ ApprovalMode.AUTO then
        match check_approval env with
        | (.ok true, _) => true
        | _ => false
      else true

/-- Whether this run appends a `Decision` to the local store: it must
reach execution, the executor must return, and `_log_decision` must
succeed. -/
def decisionLogged (env : Env) : Bool :=
  reachesExecution env &&
    (match env.execute with
     | .error _ => false
     | .ok _ =>
       match env.logExternal with
       | .error _ => false
       | .ok _ => true)

/-- Linear rank of a status in the pipeline graph
`PENDING → SELECTING → (AWAITING_APPROVAL)? → EXECUTING → terminal`. -/
def statusRank : TaskStatus → Nat
  | .PENDING => 0
  | .COUNCIL_SELECTING => 1
  | .AWAITING_APPROVAL => 2
  | .EXECUTING => 3
  | .COMPLETED => 4
  | .FAILED => 4
  | .REJECTED => 4

/-- A concrete council selection, as the mock selector would return it. -/
def selMock : AgentSelection :=
  { selected_agent := "claude", confidence := 1,
    reasoning := "mock reasoning",
    votes := [("m1", "claude")],
    rankings := [("m1", ["claude", "aider"])] }

/-- A concrete environment for a fully successful run: selection
succeeds, mode is the configured default `AUTO`, the executor returns
success, and decision logging succeeds. -/
def envBase : Env :=
  { taskId := "task-1", select := .ok selMock,
    approvalOverride := none, configMode := "AUTO",
    classifyRisk := .ok "low", requiresApproval := .ok true,
    createRequest := .ok (), autoApprove := .ok true,
    execute := .ok { response := "done", success := true,
                     duration_ms := 10, error := none },
    logExternal := .ok (), decisionId := "dec-1", decisionTime := 1,
    agentNames := ["aider", "claude"], failDuration := 7 }

/-- Environment in which the council selector raises. -/
def envSelectFails : Env :=
  { envBase with select := .error "QuorumFailure: too few voters responded" }

/-- Environment with gating mode `APPROVE_ALL` in which the approval
decision is an explicit denial. -/
def envDenied : Env :=
  { envBase with approvalOverride := some ApprovalMode.APPROVE_ALL,
                 autoApprove := .ok false }

/-- Environment in which the executor returns (does not raise) a failed
result with an error message. -/
def envAdapterReportsError : Env :=
  { envBase with execute := .ok { response := "", success := false,
                                  duration_ms := 3,
                                  error := some "adapter boom" } }

/-- Environment in which the executor collaborator raises. -/
def envExecRaises : Env :=
  { envBase with execute := .error "executor crashed" }

/-- Environment in which the executor returns success but the decision
logging call raises. -/
def envLogRaises : Env :=
  { envBase with logExternal := .error "log boom" }

/-- A concrete stored decision record. -/
def decA : Decision :=
  { id := "dec-A", task_id := "task-1",
    decision_type := "AGENT_SELECTION",
    title := "Selected claude for task", reasoning := "r1",
    confidence := 1, alternatives := ["aider", "claude"],
    outcome := some "success", created_at := 1 }

/-- A second concrete stored decision record, logged after `decA`. -/
def decB : Decision :=
  { decA with id := "dec-B", created_at := 2 }

/- ===================================================================
   Theorems
   =================================================================== -/

/-- On an internal raise during execution or logging, the execute phase
lands in the except handler's outcome: `FAILED`, a `failedResult`, and
the decision list unchanged. -/
theorem runExecutePhase_of_error (env : Env) (sel : AgentSelection)
    (ds : List Decision) (pre : List TaskStatus) (reqs : Nat)
    (h : executePhaseError env = true) :
    ∃ e, runExecutePhase env sel ds pre reqs =
      { result := failedResult env e, finalStatus := .FAILED,
        statuses := pre ++ [.EXECUTING, .FAILED],
        decisions := ds, executorCalls := 1, approvalRequests := reqs } := by
  unfold executePhaseError at h
  unfold runExecutePhase execute_agent log_decision
  cases hex : env.execute with
  | error e => exact ⟨e, rfl⟩
  | ok r =>
    rw [hex] at h
    cases hlog : env.logExternal with
    | error e => exact ⟨e, rfl⟩
    | ok u => rw [hlog] at h; exact absurd h (by simp)

/-- When the executor returns and decision logging succeeds, the execute
phase completes: status `COMPLETED`, the executor's record wrapped into
the returned `ExecutionResult`, and one decision appended. -/
theorem runExecutePhase_of_ok (env : Env) (sel : AgentSelection)
    (ds : List Decision) (pre : List TaskStatus) (reqs : Nat)
    (r : ExecReturn) (hex : env.execute = .ok r)
    (hlog : env.logExternal = .ok ()) :
    runExecutePhase env sel ds pre reqs =
      { result := { task_id := env.taskId, agent := sel.selected_agent,
                    response := r.response, success := r.success,
                    duration_ms := r.duration_ms, error := r.error },
        finalStatus := .COMPLETED,
        statuses := pre ++ [.EXECUTING, .COMPLETED],
        decisions := ds ++ [localDecision env sel
          { task_id := env.taskId, agent := sel.selected_agent,
            response := r.response, success := r.success,
            duration_ms := r.duration_ms, error := r.error }],
        executorCalls := 1, approvalRequests := reqs } := by
  unfold runExecutePhase execute_agent log_decision
  rw [hex, hlog]

/-- When no internal error arises during the execute phase, the
executor returned a record and the external decision logging call
succeeded. -/
theorem executePhaseError_false_elim (env : Env)
    (h : executePhaseError env = false) :
    ∃ r, env.execute = Except.ok r ∧ env.logExternal = Except.ok () := by
  unfold executePhaseError at h
  cases hex : env.execute with
  | error e => rw [hex] at h; simp at h
  | ok r =>
    rw [hex] at h
    cases hlog : env.logExternal with
    | error e => rw [hlog] at h; simp at h
    | ok u => exact ⟨r, rfl, by cases u; rfl⟩

/-- A decision is appended exactly when execution is reached and the
execute phase raises nowhere. -/
theorem decisionLogged_eq (env : Env) :
    decisionLogged env = (reachesExecution env && !executePhaseError env) := by
  unfold decisionLogged executePhaseError
  cases hex : env.execute with
  | error e => simp
  | ok r => cases hlog : env.logExternal with
    | error e => simp
    | ok u => simp

/-- Branch equation: the selector raises (orchestrator.py line 185 →
except handler). -/
theorem process_task_select_error (env : Env) (ds : List Decision)
    (e : String) (hsel : env.select = Except.error e) :
    process_task env ds =
      { result := failedResult env e, finalStatus := TaskStatus.FAILED,
        statuses := [.PENDING, .COUNCIL_SELECTING, .FAILED],
        decisions := ds, executorCalls := 0, approvalRequests := 0 } := by
  unfold process_task; rw [hsel]

/-- Branch equation: approval-mode resolution raises (line 188-190 →
except handler). -/
theorem process_task_mode_error (env : Env) (ds : List Decision)
    (sel : AgentSelection) (e : String) (hsel : env.select = Except.ok sel)
    (hm : effectiveMode env = Except.error e) :
    process_task env ds =
      { result := failedResult env e, finalStatus := TaskStatus.FAILED,
        statuses := [.PENDING, .COUNCIL_SELECTING, .FAILED],
        decisions := ds, executorCalls := 0, approvalRequests := 0 } := by
  unfold process_task; rw [hsel, hm]

/-- Branch equation: effective mode `AUTO` skips gating and goes to the
execute phase (line 191 false branch). -/
theorem process_task_auto (env : Env) (ds : List Decision)
    (sel : AgentSelection) (hsel : env.select = Except.ok sel)
    (hm : effectiveMode env = Except.ok ApprovalMode.AUTO) :
    process_task env ds =
      runExecutePhase env sel ds [.PENDING, .COUNCIL_SELECTING] 0 := by
  unfold process_task; rw [hsel, hm]; rfl

/-- Branch equation: gating mode and `_check_approval` raises (line 193
→ except handler). -/
theorem process_task_gated_check_error (env : Env) (ds : List Decision)
    (sel : AgentSelection) (mode : ApprovalMode) (e : String) (reqs : Nat)
    (hsel : env.select = Except.ok sel)
    (hm : effectiveMode env = Except.ok mode)
    (hmode : mode ≠ ApprovalMode.AUTO)
    (hca : check_approval env = (Except.error e, reqs)) :
    process_task env ds =
      { result := failedResult env e, finalStatus := TaskStatus.FAILED,
        statuses := [.PENDING, .COUNCIL_SELECTING, .AWAITING_APPROVAL,
                     .FAILED],
        decisions := ds, executorCalls := 0, approvalRequests := reqs } := by
  simp [process_task, hsel, hm, hca, hmode]

/-- Branch equation: gating mode and approval denied (lines 194-203). -/
theorem process_task_denied (env : Env) (ds : List Decision)
    (sel : AgentSelection) (mode : ApprovalMode) (reqs : Nat)
    (hsel : env.select = Except.ok sel)
    (hm : effectiveMode env = Except.ok mode)
    (hmode : mode ≠ ApprovalMode.AUTO)
    (hca : check_approval env = (Except.ok false, reqs)) :
    process_task env ds =
      { result := rejectedResult env sel, finalStatus := TaskStatus.REJECTED,
        statuses := [.PENDING, .COUNCIL_SELECTING, .AWAITING_APPROVAL,
                     .REJECTED],
        decisions := ds, executorCalls := 0, approvalRequests := reqs } := by
  simp [process_task, hsel, hm, hca, hmode]

/-- Branch equation: gating mode and approval granted — proceed to the
execute phase (line 194 false branch). -/
theorem process_task_approved (env : Env) (ds : List Decision)
    (sel : AgentSelection) (mode : ApprovalMode) (reqs : Nat)
    (hsel : env.select = Except.ok sel)
    (hm : effectiveMode env = Except.ok mode)
    (hmode : mode ≠ ApprovalMode.AUTO)
    (hca : check_approval env = (Except.ok true, reqs)) :
    process_task env ds =
      runExecutePhase env sel ds
        [.PENDING, .COUNCIL_SELECTING, .AWAITING_APPROVAL] reqs := by
  simp [process_task, hsel, hm, hca, hmode]

/-- C1: `process_task` always returns an `ExecutionResult` (it is a
total function of the oracle environment — the "never raises" boundary),
and whenever an internal error arises at any stage inside the try block
(selection, mode resolution, approval, execution, or logging), the
returned result has `success = false` and a populated `error`, and the
task's final status is `FAILED`. -/
theorem process_task_captures_internal_errors (env : Env)
    (ds : List Decision) (h : errorArose env = true) :
    (process_task env ds).finalStatus = TaskStatus.FAILED ∧
    (process_task env ds).result.success = false ∧
    (process_task env ds).result.error.isSome = true := by
  cases hsel : env.select with
  | error e => simp [process_task, hsel, failedResult]
  | ok sel =>
    cases hm : effectiveMode env with
    | error e => simp [process_task, hsel, hm, failedResult]
    | ok mode =>
      rcases hca : check_approval env with ⟨exb, reqs⟩
      by_cases hmode : mode = ApprovalMode.AUTO
      · subst hmode
        have h2 : executePhaseError env = true := by
          simpa [errorArose, hsel, hm] using h
        obtain ⟨e, hrun⟩ := runExecutePhase_of_error env sel ds
          [TaskStatus.PENDING, TaskStatus.COUNCIL_SELECTING] 0 h2
        simp [process_task, hsel, hm, hrun, failedResult]
      · cases exb with
        | error e => simp [process_task, hsel, hm, hca, hmode, failedResult]
        | ok approved =>
          cases approved with
          | false =>
            exfalso
            simp [errorArose, hsel, hm, hca, hmode] at h
          | true =>
            have h2 : executePhaseError env = true := by
              simpa [errorArose, hsel, hm, hca, hmode] using h
            obtain ⟨e, hrun⟩ := runExecutePhase_of_error env sel ds
              [TaskStatus.PENDING, TaskStatus.COUNCIL_SELECTING,
               TaskStatus.AWAITING_APPROVAL] reqs h2
            simp [process_task, hsel, hm, hca, hmode, hrun, failedResult]

/-- Witness for C1 at a concrete environment where the selector raises. -/
theorem process_task_captures_internal_errors_witness :
    errorArose envSelectFails = true ∧
    (process_task envSelectFails []).finalStatus = TaskStatus.FAILED ∧
    (process_task envSelectFails []).result.success = false ∧
    (process_task envSelectFails []).result.error.isSome = true := by
  refine ⟨by decide, ?_⟩
  exact process_task_captures_internal_errors envSelectFails [] (by decide)

/-- C2 counterexample: in a run under mode `APPROVE_ALL` where the
selector completed and approval was explicitly denied, `process_task`
returns (status `REJECTED`) with the decision store exactly as before —
no `Decision` is appended, contradicting the claim that a Decision is
recorded in every run whose selection completed. -/
theorem denied_run_appends_no_decision :
    envDenied.select = Except.ok selMock ∧
    (process_task envDenied []).finalStatus = TaskStatus.REJECTED ∧
    (process_task envDenied []).decisions = [] := by
  exact ⟨rfl, rfl, rfl⟩

/-- C2 (amended): exactly one Decision is appended precisely in the runs
that reach execution, whose executor returns a result, and whose
decision logging succeeds; in every other run — approval denied, or any
exception after selection (including selector failure itself) — the
decision store is returned unchanged. -/
theorem decision_appended_iff_logged (env : Env) (ds : List Decision) :
    (process_task env ds).decisions.length =
      ds.length + (if decisionLogged env then 1 else 0) := by
  cases hsel : env.select with
  | error e =>
    rw [process_task_select_error env ds e hsel]
    simp [decisionLogged, reachesExecution, hsel]
  | ok sel =>
    cases hm : effectiveMode env with
    | error e =>
      rw [process_task_mode_error env ds sel e hsel hm]
      simp [decisionLogged, reachesExecution, hsel, hm]
    | ok mode =>
      rcases hca : check_approval env with ⟨exb, reqs⟩
      by_cases hmode : mode = ApprovalMode.AUTO
      · subst hmode
        have hreach : reachesExecution env = true := by
          simp [reachesExecution, hsel, hm]
        rw [process_task_auto env ds sel hsel hm]
        cases hpe : executePhaseError env with
        | true =>
          obtain ⟨e, hrun⟩ := runExecutePhase_of_error env sel ds
            [TaskStatus.PENDING, TaskStatus.COUNCIL_SELECTING] 0 hpe
          rw [hrun]
          simp [decisionLogged_eq, hreach, hpe]
        | false =>
          obtain ⟨r, hex, hlog⟩ := executePhaseError_false_elim env hpe
          rw [runExecutePhase_of_ok env sel ds
            [TaskStatus.PENDING, TaskStatus.COUNCIL_SELECTING] 0 r hex hlog]
          simp [decisionLogged_eq, hreach, hpe]
      · cases exb with
        | error e =>
          rw [process_task_gated_check_error env ds sel mode e reqs
            hsel hm hmode hca]
          simp [decisionLogged, reachesExecution, hsel, hm, hca, hmode]
        | ok approved =>
          cases approved with
          | false =>
            rw [process_task_denied env ds sel mode reqs hsel hm hmode hca]
            simp [decisionLogged, reachesExecution, hsel, hm, hca, hmode]
          | true =>
            have hreach : reachesExecution env = true := by
              simp [reachesExecution, hsel, hm, hca, hmode]
            rw [process_task_approved env ds sel mode reqs hsel hm hmode hca]
            cases hpe : executePhaseError env with
            | true =>
              obtain ⟨e, hrun⟩ := runExecutePhase_of_error env sel ds
                [TaskStatus.PENDING, TaskStatus.COUNCIL_SELECTING,
                 TaskStatus.AWAITING_APPROVAL] reqs hpe
              rw [hrun]
              simp [decisionLogged_eq, hreach, hpe]
            | false =>
              obtain ⟨r, hex, hlog⟩ := executePhaseError_false_elim env hpe
              rw [runExecutePhase_of_ok env sel ds
                [TaskStatus.PENDING, TaskStatus.COUNCIL_SELECTING,
                 TaskStatus.AWAITING_APPROVAL] reqs r hex hlog]
              simp [decisionLogged_eq, hreach, hpe]

/-- C3 counterexample: the Executor Adapter returns (does not raise) a
result with `success=False` and an error message; the task's final
status is `COMPLETED`, not `FAILED` as claimed — `process_task` sets
`COMPLETED` unconditionally after logging (orchestrator.py line 212). -/
theorem adapter_reported_error_yields_completed :
    (process_task envAdapterReportsError []).result.success = false ∧
    (process_task envAdapterReportsError []).result.error =
      some "adapter boom" ∧
    (process_task envAdapterReportsError []).finalStatus =
      TaskStatus.COMPLETED := by
  exact ⟨rfl, rfl, rfl⟩

/-- C3 (amended): in runs that reach execution, if the adapter returns a
result and decision logging succeeds, the final status is `COMPLETED`
regardless of the result's success flag, and the returned
`ExecutionResult` carries the adapter's success flag and error message
unchanged; the final status is `FAILED` exactly when the adapter (or the
decision logging after it) raises, with the exception's message as the
error. -/
theorem executor_outcome_vs_final_status (env : Env) (ds : List Decision)
    (hreach : reachesExecution env = true) :
    (∀ r, env.execute = Except.ok r → env.logExternal = Except.ok () →
      (process_task env ds).finalStatus = TaskStatus.COMPLETED ∧
      (process_task env ds).result.success = r.success ∧
      (process_task env ds).result.error = r.error) ∧
    (∀ e, env.execute = Except.error e →
      (process_task env ds).finalStatus = TaskStatus.FAILED ∧
      (process_task env ds).result.success = false ∧
      (process_task env ds).result.error = some e) ∧
    (∀ r e, env.execute = Except.ok r → env.logExternal = Except.error e →
      (process_task env ds).finalStatus = TaskStatus.FAILED ∧
      (process_task env ds).result.success = false ∧
      (process_task env ds).result.error = some e) := by
  obtain ⟨sel, pre, reqs, hsel, hpt⟩ : ∃ sel pre reqs,
      env.select = Except.ok sel ∧
      process_task env ds = runExecutePhase env sel ds pre reqs := by
    cases hsel : env.select with
    | error e => simp [reachesExecution, hsel] at hreach
    | ok sel =>
      cases hm : effectiveMode env with
      | error e => simp [reachesExecution, hsel, hm] at hreach
      | ok mode =>
        rcases hca : check_approval env with ⟨exb, reqs⟩
        by_cases hmode : mode = ApprovalMode.AUTO
        · subst hmode
          exact ⟨sel, _, 0, rfl, process_task_auto env ds sel hsel hm⟩
        · cases exb with
          | error e => simp [reachesExecution, hsel, hm, hca, hmode] at hreach
          | ok approved =>
            cases approved with
            | false => simp [reachesExecution, hsel, hm, hca, hmode] at hreach
            | true =>
              exact ⟨sel, _, reqs, rfl,
                process_task_approved env ds sel mode reqs hsel hm hmode hca⟩
  refine ⟨?_, ?_, ?_⟩
  · intro r hex hlog
    rw [hpt, runExecutePhase_of_ok env sel ds pre reqs r hex hlog]
    exact ⟨rfl, rfl, rfl⟩
  · intro e hex
    have hrun : runExecutePhase env sel ds pre reqs =
        { result := failedResult env e, finalStatus := TaskStatus.FAILED,
          statuses := pre ++ [.EXECUTING, .FAILED],
          decisions := ds, executorCalls := 1, approvalRequests := reqs } := by
      unfold runExecutePhase execute_agent
      rw [hex]
    rw [hpt, hrun]
    exact ⟨rfl, rfl, rfl⟩
  · intro r e hex hlog
    have hrun : runExecutePhase env sel ds pre reqs =
        { result := failedResult env e, finalStatus := TaskStatus.FAILED,
          statuses := pre ++ [.EXECUTING, .FAILED],
          decisions := ds, executorCalls := 1, approvalRequests := reqs } := by
      unfold runExecutePhase execute_agent log_decision
      rw [hex, hlog]
    rw [hpt, hrun]
    exact ⟨rfl, rfl, rfl⟩

/-- Witness for C3's amended theorem at two concrete environments: a
raising executor gives `FAILED` with the executor exception's message,
and an executor that returns success followed by a raising decision
logger gives `FAILED` with the logging exception's message; every
hypothesis is discharged concretely. -/
theorem executor_outcome_vs_final_status_witness :
    reachesExecution envExecRaises = true ∧
    (process_task envExecRaises []).finalStatus = TaskStatus.FAILED ∧
    (process_task envExecRaises []).result.error =
      some "executor crashed" ∧
    reachesExecution envLogRaises = true ∧
    (process_task envLogRaises []).finalStatus = TaskStatus.FAILED ∧
    (process_task envLogRaises []).result.error = some "log boom" := by
  refine ⟨by decide, ?_, ?_, by decide, ?_, ?_⟩
  · exact ((executor_outcome_vs_final_status envExecRaises [] (by decide)).2.1
      "executor crashed" rfl).1
  · exact ((executor_outcome_vs_final_status envExecRaises [] (by decide)).2.1
      "executor crashed" rfl).2.2
  · exact ((executor_outcome_vs_final_status envLogRaises [] (by decide)).2.2
      { response := "done", success := true, duration_ms := 10,
        error := none }
      "log boom" rfl rfl).1
  · exact ((executor_outcome_vs_final_status envLogRaises [] (by decide)).2.2
      { response := "done", success := true, duration_ms := 10,
        error := none }
      "log boom" rfl rfl).2.2

/-- C4: in every run, the sequence of status values the task holds
starts at `PENDING` and is strictly increasing along the pipeline graph
`PENDING → SELECTING → (AWAITING_APPROVAL)? → EXECUTING → terminal`:
no status is repeated, no transition moves backward, and the last entry
is the task's final status. -/
theorem status_walk_strictly_forward (env : Env) (ds : List Decision) :
    (process_task env ds).statuses.head? = some TaskStatus.PENDING ∧
    List.Pairwise (fun a b => statusRank a < statusRank b)
      (process_task env ds).statuses ∧
    (process_task env ds).statuses.getLast? =
      some (process_task env ds).finalStatus := by
  cases hsel : env.select with
  | error e =>
    rw [process_task_select_error env ds e hsel]
    exact ⟨rfl, by simp [List.pairwise_cons, statusRank], rfl⟩
  | ok sel =>
    cases hm : effectiveMode env with
    | error e =>
      rw [process_task_mode_error env ds sel e hsel hm]
      exact ⟨rfl, by simp [List.pairwise_cons, statusRank], rfl⟩
    | ok mode =>
      rcases hca : check_approval env with ⟨exb, reqs⟩
      by_cases hmode : mode = ApprovalMode.AUTO
      · subst hmode
        rw [process_task_auto env ds sel hsel hm]
        cases hpe : executePhaseError env with
        | true =>
          obtain ⟨e, hrun⟩ := runExecutePhase_of_error env sel ds
            [TaskStatus.PENDING, TaskStatus.COUNCIL_SELECTING] 0 hpe
          rw [hrun]
          exact ⟨rfl, by simp [List.pairwise_cons, statusRank], rfl⟩
        | false =>
          obtain ⟨r, hex, hlog⟩ := executePhaseError_false_elim env hpe
          rw [runExecutePhase_of_ok env sel ds
            [TaskStatus.PENDING, TaskStatus.COUNCIL_SELECTING] 0 r hex hlog]
          exact ⟨rfl, by simp [List.pairwise_cons, statusRank], rfl⟩
      · cases exb with
        | error e =>
          rw [process_task_gated_check_error env ds sel mode e reqs
            hsel hm hmode hca]
          exact ⟨rfl, by simp [List.pairwise_cons, statusRank], rfl⟩
        | ok approved =>
          cases approved with
          | false =>
            rw [process_task_denied env ds sel mode reqs hsel hm hmode hca]
            exact ⟨rfl, by simp [List.pairwise_cons, statusRank], rfl⟩
          | true =>
            rw [process_task_approved env ds sel mode reqs hsel hm hmode hca]
            cases hpe : executePhaseError env with
            | true =>
              obtain ⟨e, hrun⟩ := runExecutePhase_of_error env sel ds
                [TaskStatus.PENDING, TaskStatus.COUNCIL_SELECTING,
                 TaskStatus.AWAITING_APPROVAL] reqs hpe
              rw [hrun]
              exact ⟨rfl, by simp [List.pairwise_cons, statusRank], rfl⟩
            | false =>
              obtain ⟨r, hex, hlog⟩ := executePhaseError_false_elim env hpe
              rw [runExecutePhase_of_ok env sel ds
                [TaskStatus.PENDING, TaskStatus.COUNCIL_SELECTING,
                 TaskStatus.AWAITING_APPROVAL] reqs r hex hlog]
              exact ⟨rfl, by simp [List.pairwise_cons, statusRank], rfl⟩

/-- C5: under an effective gating mode, when the approval gate completes
without granting approval, the task's final status is `REJECTED`, the
returned result has `success = false` with the rejection message, and
the Executor Adapter is never invoked. -/
theorem denied_approval_rejects_without_execution (env : Env)
    (ds : List Decision) (sel : AgentSelection) (mode : ApprovalMode)
    (reqs : Nat) (hsel : env.select = Except.ok sel)
    (hm : effectiveMode env = Except.ok mode)
    (hmode : mode ≠ ApprovalMode.AUTO)
    (hca : check_approval env = (Except.ok false, reqs)) :
    (process_task env ds).finalStatus = TaskStatus.REJECTED ∧
    (process_task env ds).result.success = false ∧
    (process_task env ds).result.error =
      some "User rejected agent selection" ∧
    (process_task env ds).executorCalls = 0 := by
  rw [process_task_denied env ds sel mode reqs hsel hm hmode hca]
  exact ⟨rfl, rfl, rfl, rfl⟩

/-- Witness for C5 at a concrete environment: mode `APPROVE_ALL` with an
explicit denial. -/
theorem denied_approval_rejects_without_execution_witness :
    envDenied.select = Except.ok selMock ∧
    effectiveMode envDenied = Except.ok ApprovalMode.APPROVE_ALL ∧
    check_approval envDenied = (Except.ok false, 1) ∧
    (process_task envDenied []).finalStatus = TaskStatus.REJECTED ∧
    (process_task envDenied []).executorCalls = 0 := by
  refine ⟨rfl, rfl, rfl, ?_, ?_⟩
  · exact (denied_approval_rejects_without_execution envDenied [] selMock
      ApprovalMode.APPROVE_ALL 1 rfl rfl (by decide) rfl).1
  · exact (denied_approval_rejects_without_execution envDenied [] selMock
      ApprovalMode.APPROVE_ALL 1 rfl rfl (by decide) rfl).2.2.2

/-- C6: when the Council Selector raises, the task is set `FAILED` and
`process_task` returns immediately with `success = false` carrying the
selector's message; no approval request is created, the executor is not
invoked, and the decision store is exactly as it was before the call. -/
theorem selector_failure_fails_fast (env : Env) (ds : List Decision)
    (e : String) (hsel : env.select = Except.error e) :
    (process_task env ds).finalStatus = TaskStatus.FAILED ∧
    (process_task env ds).result.success = false ∧
    (process_task env ds).result.error = some e ∧
    (process_task env ds).approvalRequests = 0 ∧
    (process_task env ds).executorCalls = 0 ∧
    (process_task env ds).decisions = ds := by
  rw [process_task_select_error env ds e hsel]
  exact ⟨rfl, rfl, rfl, rfl, rfl, rfl⟩

/-- Witness for C6 at a concrete environment whose selector raises, with
a non-empty prior decision store (left untouched). -/
theorem selector_failure_fails_fast_witness :
    envSelectFails.select =
      Except.error "QuorumFailure: too few voters responded" ∧
    (process_task envSelectFails [decA]).finalStatus = TaskStatus.FAILED ∧
    (process_task envSelectFails [decA]).approvalRequests = 0 ∧
    (process_task envSelectFails [decA]).executorCalls = 0 ∧
    (process_task envSelectFails [decA]).decisions = [decA] := by
  refine ⟨rfl, ?_, ?_, ?_, ?_⟩
  · exact (selector_failure_fails_fast envSelectFails [decA] _ rfl).1
  · exact (selector_failure_fails_fast envSelectFails [decA] _ rfl).2.2.2.1
  · exact (selector_failure_fails_fast envSelectFails [decA] _ rfl).2.2.2.2.1
  · exact (selector_failure_fails_fast envSelectFails [decA] _ rfl).2.2.2.2.2

/-- Reading `get_decisions` with `limit = 0` is Python `xs[-0:] = xs[0:]`: the
whole list. -/
theorem get_decisions_zero (ds : List Decision) :
    get_decisions ds 0 = ds := rfl

/-- For `limit ≥ 1`, `get_decisions` is `drop (length - limit)`. -/
theorem get_decisions_pos (ds : List Decision) (limit : Nat)
    (h : 1 ≤ limit) :
    get_decisions ds limit = List.drop (ds.length - limit) ds := by
  unfold get_decisions pySliceFrom
  rw [if_pos (by omega : -(limit : Int) < 0)]
  congr 1
  omega

/-- C7 counterexample: after logging `decA` then `decB`,
`get_decisions(limit=100)` returns `[decA, decB]` — oldest first
(chronological), not the claimed most-recent-first `[decB, decA]`. -/
theorem get_decisions_not_most_recent_first :
    get_decisions [decA, decB] 100 = [decA, decB] ∧
    get_decisions [decA, decB] 100 ≠ [decB, decA] := by
  exact ⟨rfl, by decide⟩

/-- C7 (amended): after `k` logged decisions, `get_decisions` with
`limit ≥ 1` returns exactly `min(limit, k)` records, and they are the
most recently logged ones kept in chronological (insertion) order — a
suffix of the log, not a reversed sequence. -/
theorem get_decisions_returns_recent_suffix (ds : List Decision)
    (limit : Nat) (h : 1 ≤ limit) :
    (get_decisions ds limit).length = min limit ds.length ∧
    List.take (ds.length - limit) ds ++ get_decisions ds limit = ds := by
  rw [get_decisions_pos ds limit h]
  constructor
  · rw [List.length_drop]
    omega
  · exact List.take_append_drop _ ds

/-- Witness for C7's amended theorem at a two-element log and
`limit = 1`. -/
theorem get_decisions_returns_recent_suffix_witness :
    (get_decisions [decA, decB] 1).length = min 1 [decA, decB].length ∧
    List.take ([decA, decB].length - 1) [decA, decB] ++
      get_decisions [decA, decB] 1 = [decA, decB] :=
  get_decisions_returns_recent_suffix [decA, decB] 1 (by decide)

/-- C8: the decision store is append-only — every `process_task` run
returns the prior list extended by a (possibly empty) tail, so the
record count never decreases and no stored `Decision` is mutated or
deleted; when a decision is logged the count strictly increases by one
and the new record is visible to a subsequent full read
(`get_decisions` with `limit = 0`).  `get_decisions` itself is a pure
read: it takes the store as input and never returns a modified store. -/
theorem decision_store_append_only (env : Env) (ds : List Decision) :
    (∃ tail, (process_task env ds).decisions = ds ++ tail) ∧
    ds.length ≤ (process_task env ds).decisions.length ∧
    (decisionLogged env = true →
      ∃ d, (process_task env ds).decisions = ds ++ [d] ∧
        d ∈ get_decisions (process_task env ds).decisions 0) := by
  cases hsel : env.select with
  | error e =>
    rw [process_task_select_error env ds e hsel]
    refine ⟨⟨[], by simp⟩, by simp, fun hl => absurd hl ?_⟩
    simp [decisionLogged, reachesExecution, hsel]
  | ok sel =>
    cases hm : effectiveMode env with
    | error e =>
      rw [process_task_mode_error env ds sel e hsel hm]
      refine ⟨⟨[], by simp⟩, by simp, fun hl => absurd hl ?_⟩
      simp [decisionLogged, reachesExecution, hsel, hm]
    | ok mode =>
      rcases hca : check_approval env with ⟨exb, reqs⟩
      by_cases hmode : mode = ApprovalMode.AUTO
      · subst hmode
        rw [process_task_auto env ds sel hsel hm]
        cases hpe : executePhaseError env with
        | true =>
          obtain ⟨e, hrun⟩ := runExecutePhase_of_error env sel ds
            [TaskStatus.PENDING, TaskStatus.COUNCIL_SELECTING] 0 hpe
          rw [hrun]
          refine ⟨⟨[], by simp⟩, by simp, fun hl => absurd hl ?_⟩
          simp [decisionLogged_eq, hpe]
        | false =>
          obtain ⟨r, hex, hlog⟩ := executePhaseError_false_elim env hpe
          rw [runExecutePhase_of_ok env sel ds
            [TaskStatus.PENDING, TaskStatus.COUNCIL_SELECTING] 0 r hex hlog]
          refine ⟨⟨_, rfl⟩, by simp, fun _ => ⟨_, rfl, ?_⟩⟩
          rw [get_decisions_zero]
          simp
      · cases exb with
        | error e =>
          rw [process_task_gated_check_error env ds sel mode e reqs
            hsel hm hmode hca]
          refine ⟨⟨[], by simp⟩, by simp, fun hl => absurd hl ?_⟩
          simp [decisionLogged, reachesExecution, hsel, hm, hca, hmode]
        | ok approved =>
          cases approved with
          | false =>
            rw [process_task_denied env ds sel mode reqs hsel hm hmode hca]
            refine ⟨⟨[], by simp⟩, by simp, fun hl => absurd hl ?_⟩
            simp [decisionLogged, reachesExecution, hsel, hm, hca, hmode]
          | true =>
            rw [process_task_approved env ds sel mode reqs hsel hm hmode hca]
            cases hpe : executePhaseError env with
            | true =>
              obtain ⟨e, hrun⟩ := runExecutePhase_of_error env sel ds
                [TaskStatus.PENDING, TaskStatus.COUNCIL_SELECTING,
                 TaskStatus.AWAITING_APPROVAL] reqs hpe
              rw [hrun]
              refine ⟨⟨[], by simp⟩, by simp, fun hl => absurd hl ?_⟩
              simp [decisionLogged_eq, hpe]
            | false =>
              obtain ⟨r, hex, hlog⟩ := executePhaseError_false_elim env hpe
              rw [runExecutePhase_of_ok env sel ds
                [TaskStatus.PENDING, TaskStatus.COUNCIL_SELECTING,
                 TaskStatus.AWAITING_APPROVAL] reqs r hex hlog]
              refine ⟨⟨_, rfl⟩, by simp, fun _ => ⟨_, rfl, ?_⟩⟩
              rw [get_decisions_zero]
              simp

/-- Witness for C8 at a concrete fully-successful environment: one
decision is appended. -/
theorem decision_store_append_only_witness :
    decisionLogged envBase = true ∧
    ∃ d, (process_task envBase [decA]).decisions = [decA] ++ [d] ∧
      d ∈ get_decisions (process_task envBase [decA]).decisions 0 := by
  exact ⟨by decide,
    (decision_store_append_only envBase [decA]).2.2 (by decide)⟩

/-- C9: every run ending via the exception-capture path returns
`agent = "unknown"` and `response = ""` — even when an agent had already
been selected before the failure occurred. -/
theorem except_path_loses_agent (env : Env) (ds : List Decision)
    (h : errorArose env = true) :
    (process_task env ds).result.agent = "unknown" ∧
    (process_task env ds).result.response = "" := by
  cases hsel : env.select with
  | error e =>
    rw [process_task_select_error env ds e hsel]
    exact ⟨rfl, rfl⟩
  | ok sel =>
    cases hm : effectiveMode env with
    | error e =>
      rw [process_task_mode_error env ds sel e hsel hm]
      exact ⟨rfl, rfl⟩
    | ok mode =>
      rcases hca : check_approval env with ⟨exb, reqs⟩
      by_cases hmode : mode = ApprovalMode.AUTO
      · subst hmode
        have h2 : executePhaseError env = true := by
          simpa [errorArose, hsel, hm] using h
        obtain ⟨e, hrun⟩ := runExecutePhase_of_error env sel ds
          [TaskStatus.PENDING, TaskStatus.COUNCIL_SELECTING] 0 h2
        rw [process_task_auto env ds sel hsel hm, hrun]
        exact ⟨rfl, rfl⟩
      · cases exb with
        | error e =>
          rw [process_task_gated_check_error env ds sel mode e reqs
            hsel hm hmode hca]
          exact ⟨rfl, rfl⟩
        | ok approved =>
          cases approved with
          | false =>
            exfalso
            simp [errorArose, hsel, hm, hca, hmode] at h
          | true =>
            have h2 : executePhaseError env = true := by
              simpa [errorArose, hsel, hm, hca, hmode] using h
            obtain ⟨e, hrun⟩ := runExecutePhase_of_error env sel ds
              [TaskStatus.PENDING, TaskStatus.COUNCIL_SELECTING,
               TaskStatus.AWAITING_APPROVAL] reqs h2
            rw [process_task_approved env ds sel mode reqs hsel hm hmode hca,
                hrun]
            exact ⟨rfl, rfl⟩

/-- Witness for C9 at an environment where an agent WAS selected and the
executor then raised: the result still reports `agent = "unknown"`. -/
theorem except_path_loses_agent_witness :
    envExecRaises.select = Except.ok selMock ∧
    errorArose envExecRaises = true ∧
    (process_task envExecRaises []).result.agent = "unknown" ∧
    (process_task envExecRaises []).result.response = "" := by
  refine ⟨rfl, by decide, ?_, ?_⟩
  · exact (except_path_loses_agent envExecRaises [] (by decide)).1
  · exact (except_path_loses_agent envExecRaises [] (by decide)).2

/-- C10: `get_decisions` with `limit = 0` returns the entire stored
sequence (Python `xs[-0:]` is `xs[0:]`), and for every `limit ≥ 1` it
returns the last `min(limit, count)` records: a suffix of the store
preceded by exactly `count - limit` older records. -/
theorem get_decisions_limit_zero_and_pos (ds : List Decision)
    (limit : Nat) :
    get_decisions ds 0 = ds ∧
    (1 ≤ limit →
      (get_decisions ds limit).length = min limit ds.length ∧
      ∃ pre, pre ++ get_decisions ds limit = ds ∧
        pre.length = ds.length - limit) := by
  refine ⟨rfl, fun h => ?_⟩
  rw [get_decisions_pos ds limit h]
  refine ⟨by rw [List.length_drop]; omega,
          List.take (ds.length - limit) ds, List.take_append_drop _ ds, ?_⟩
  rw [List.length_take]
  omega

/-- Witness for C10 at a one-element store and `limit = 1`. -/
theorem get_decisions_limit_zero_and_pos_witness :
    get_decisions [decA] 0 = [decA] ∧
    ((get_decisions [decA] 1).length = min 1 [decA].length ∧
      ∃ pre, pre ++ get_decisions [decA] 1 = [decA] ∧
        pre.length = [decA].length - 1) := by
  have h := get_decisions_limit_zero_and_pos [decA] 1
  exact ⟨h.1, h.2 (by decide)⟩

end GodAgent
